import Mathlib

/-!
Shallow embedding of the ResearchCode chemistry-tool discovery pipeline
(`src/discover.py` and `src/validate.py`).

Modelling conventions:
* Python strings are lists of characters (`Str`); `str.lower()` is a
  character-wise `Char.toLower` (the strings the pipeline compares are ASCII).
* Python floats are rationals; every score increment in the source is an
  integer, so rational arithmetic models the float arithmetic exactly, and
  `round(x, n)` is modelled by round-half-to-even on rationals (`roundHalfEven`),
  Python's rounding rule.
* A dict key that may be absent is an `Option` field; `d.get(k, default)`
  is `Option.getD`.
* The network is an explicit oracle: `get_pypi_info` takes a
  `fetch : Str → HttpOutcome` argument describing what the HTTP round trip
  for each package name produced.
-/

/-- A Python string, as a list of characters. -/
abbrev Str := List Char

/-- Python `s.lower()` (character-wise; the pipeline's data is ASCII). -/
def lowerStr (s : Str) : Str := s.map Char.toLower

/-- Does `pat` begin the string `s`?  Building block for Python's `in`. -/
def beginsWith : Str → Str → Bool
  | [], _ => true
  | _ :: _, [] => false
  | c :: pat, d :: s => c == d && beginsWith pat s

/-- Python `pat in s`: `pat` occurs as a contiguous substring of `s`. -/
def substrOccurs : Str → Str → Bool
  | pat, [] => beginsWith pat []
  | pat, c :: s => beginsWith pat (c :: s) || substrOccurs pat s

/-- Number of starting positions of `s` at which `pat` occurs (used only to
formalise the claim wording about counting keyword occurrences). -/
def substrCount : Str → Str → Nat
  | pat, [] => if beginsWith pat [] then 1 else 0
  | pat, c :: s => (if beginsWith pat (c :: s) then 1 else 0) + substrCount pat s

/-- The fields `get_pypi_info` (discover.py lines 31-40) extracts from a
well-formed PyPI JSON payload's `info` object; each field stands for the
result of the corresponding `info.get(key, '')`. -/
structure PypiInfo where
  summary : Str := []
  version : Str := []
  author : Str := []
  home_page : Str := []
  keywords : Str := []
deriving DecidableEq

/-- One tool record of the pipeline: a Python dict whose optional keys are
`Option` fields (discover.py builds these in `get_pypi_info`,
`search_github` and the seed-injection loop of `run_discovery`). -/
structure Tool where
  name : Str
  source : Str := []
  description : Option Str := none
  version : Option Str := none
  author : Option Str := none
  home_page : Option Str := none
  pypi_url : Option Str := none
  keywords : Option Str := none
  stars : Option Int := none
  days_since_update : Option Int := none
  topics : Option (List Str) := none
  has_pypi : Option Bool := none
deriving DecidableEq

/-- What one HTTP round trip of `requests.get` produced: a response with a
status code and a payload (`none` models a malformed body — `response.json()`
raising, or the decoded JSON lacking the `info` key), or `failure` (a raised
exception: timeout, connection error). -/
inductive HttpOutcome where
  | response (status : Int) (info : Option PypiInfo)
  | failure
deriving DecidableEq

/-- discover.py lines 21-44, `ChemToolDiscovery.get_pypi_info`: on a 200
response with a well-formed payload, build the record; on any non-200
status the function falls through to `return None`; any raised exception
(timeout, malformed payload) is swallowed by `except: pass` and also ends
in `return None`. -/
def get_pypi_info (fetch : Str → HttpOutcome) (package_name : Str) : Option Tool :=
  match fetch package_name with
  | .failure => none
  | .response status info =>
    if status = 200 then
      match info with
      | none => none
      | some i =>
        some { name := package_name
               source := "pypi".data
               description := some i.summary
               version := some i.version
               author := some i.author
               home_page := some i.home_page
               pypi_url := some ("https://pypi.org/project/".data ++ package_name)
               keywords := some i.keywords }
    else none

/-- validate.py lines 27-29, `normalize_name`: lowercase, then remove every
`-`, `_` and space. -/
def normalize_name (name : Str) : Str :=
  (lowerStr name).filter (fun c => !(c == '-' || c == '_' || c == ' '))

/-- Python `round` on a rational scaled by a power of ten: round half to
even, Python's rounding rule for `round()`. -/
def roundHalfEven (q : ℚ) : ℤ :=
  let f := ⌊q⌋
  let r := q - (f : ℚ)
  if r < 1/2 then f
  else if 1/2 < r then f + 1
  else if Even f then f else f + 1

/-- Python `round(q, 3)`. -/
def round3 (q : ℚ) : ℚ := (roundHalfEven (q * 1000) : ℚ) / 1000

/-- Python `round(q, 2)`. -/
def round2 (q : ℚ) : ℚ := (roundHalfEven (q * 100) : ℚ) / 100

/-- validate.py line 35: `{normalize_name(t['name']) for t in discovered}`. -/
def discoveredNames (discovered : List Tool) : Finset Str :=
  (discovered.map (fun t => normalize_name t.name)).toFinset

/-- validate.py line 36: `{normalize_name(name) for name in gold_standard}`. -/
def goldNames (gold_standard : List Str) : Finset Str :=
  (gold_standard.map normalize_name).toFinset

/-- validate.py line 39: `{normalize_name(t['name']) for t in discovered[:20]}`. -/
def top20Names (discovered : List Tool) : Finset Str :=
  ((discovered.take 20).map (fun t => normalize_name t.name)).toFinset

/-- validate.py line 45: `len(found_in_gold) / len(gold_names) if gold_names
else 0` (Python set truthiness is nonemptiness). -/
def recallVal (discovered : List Tool) (gold_standard : List Str) : ℚ :=
  if (goldNames gold_standard).Nonempty then
    ((discoveredNames discovered ∩ goldNames gold_standard).card : ℚ) /
      ((goldNames gold_standard).card : ℚ)
  else 0

/-- validate.py line 46: `len(found_in_top20) / 20 if len(top_20_names) >= 20
else 0`. -/
def precisionAt20Val (discovered : List Tool) (gold_standard : List Str) : ℚ :=
  if 20 ≤ (top20Names discovered).card then
    ((top20Names discovered ∩ goldNames gold_standard).card : ℚ) / 20
  else 0

/-- The dict returned by `calculate_metrics` (validate.py lines 54-63); the
Python `list(...)` conversions of sets are kept as `Finset`s since their
iteration order is unspecified. -/
structure Metrics where
  total_discovered : Nat
  gold_standard_size : Nat
  found_count : Nat
  «recall» : ℚ
  precision_at_20 : ℚ
  missed_tools : Finset Str
  found_tools : Finset Str
  novel_top20 : Finset Str

/-- validate.py lines 31-63, `calculate_metrics`. -/
def calculate_metrics (discovered : List Tool) (gold_standard : List Str) : Metrics :=
  { total_discovered := discovered.length
    gold_standard_size := gold_standard.length
    found_count := (discoveredNames discovered ∩ goldNames gold_standard).card
    «recall» := round3 (recallVal discovered gold_standard)
    precision_at_20 := round3 (precisionAt20Val discovered gold_standard)
    missed_tools := goldNames gold_standard \ discoveredNames discovered
    found_tools := discoveredNames discovered ∩ goldNames gold_standard
    novel_top20 := top20Names discovered \ goldNames gold_standard }

/-- discover.py lines 165-169: the fixed chemistry keyword list. -/
def chem_keywords : List Str :=
  ["chem".data, "molecule".data, "drug".data, "compound".data, "smiles".data,
   "protein".data, "docking".data, "descriptor".data, "pharma".data, "medicinal".data,
   "rdkit".data, "molecular".data, "crystal".data, "reaction".data]

/-- discover.py lines 139-150: the tiered popularity bonus; contributes only
when the `stars` key is present. -/
def popularityComponent : Option Int → ℚ
  | none => 0
  | some stars =>
    if stars > 1000 then 10
    else if stars > 500 then 8
    else if stars > 100 then 6
    else if stars > 50 then 4
    else 2

/-- discover.py lines 152-159: the recency bonus; contributes only when the
`days_since_update` key is present. -/
def recencyComponent : Option Int → ℚ
  | none => 0
  | some days =>
    if days < 90 then 5
    else if days < 180 then 3
    else if days < 365 then 1
    else 0

/-- discover.py lines 161-162: `desc = (tool.get('description') or '').lower()`. -/
def descLower (t : Tool) : Str := lowerStr (t.description.getD [])

/-- discover.py line 163: `name = tool.get('name', '').lower()`. -/
def nameLower (t : Tool) : Str := lowerStr t.name

/-- discover.py line 171: `sum(1 for kw in chem_keywords if kw in desc or kw in name)`. -/
def keywordMatches (t : Tool) : Nat :=
  chem_keywords.countP (fun kw => substrOccurs kw (descLower t) || substrOccurs kw (nameLower t))

/-- discover.py line 172: `min(keyword_matches * 2, 10)`. -/
def keywordComponent (t : Tool) : ℚ := (min (keywordMatches t * 2) 10 : ℕ)

/-- discover.py lines 174-175: `+3` when `tool.get('has_pypi', False)` is truthy. -/
def pypiComponent (t : Tool) : ℚ := if t.has_pypi.getD false then 3 else 0

/-- discover.py lines 177-178: `+2` when the `topics` key is present with more
than 2 entries. -/
def topicsComponent (t : Tool) : ℚ :=
  match t.topics with
  | some ts => if ts.length > 2 then 2 else 0
  | none => 0

/-- discover.py lines 180-182: `+5` for `source == 'pypi'` carrying the
`foundation-tool` topic. -/
def foundationComponent (t : Tool) : ℚ :=
  if t.source = "pypi".data ∧ "foundation-tool".data ∈ t.topics.getD [] then 5 else 0

/-- discover.py lines 135-184, `calculate_quality_score`: the additive score,
rounded to 2 decimal places. -/
def calculate_quality_score (t : Tool) : ℚ :=
  round2 (popularityComponent t.stars + recencyComponent t.days_since_update +
    keywordComponent t + pypiComponent t + topicsComponent t + foundationComponent t)

/-- discover.py line 192. -/
def virtual_screening_keywords : List Str :=
  ["dock".data, "screen".data, "virtual".data, "binding".data, "score".data]

/-- discover.py line 196. -/
def property_prediction_keywords : List Str :=
  ["predict".data, "qsar".data, "admet".data, "property".data, "descriptor".data,
   "ml".data, "machine".data]

/-- discover.py line 200. -/
def similarity_search_keywords : List Str :=
  ["similar".data, "search".data, "fingerprint".data, "compare".data, "cluster".data]

/-- discover.py line 204. -/
def molecule_generation_keywords : List Str :=
  ["generate".data, "design".data, "novo".data, "synthesis".data, "retro".data]

/-- discover.py line 208. -/
def visualization_keywords : List Str :=
  ["visual".data, "view".data, "render".data, "display".data, "plot".data, "draw".data]

/-- discover.py line 212. -/
def io_conversion_keywords : List Str :=
  ["convert".data, "format".data, "read".data, "write".data, "parse".data, "babel".data]

/-- discover.py line 216. -/
def simulation_keywords : List Str :=
  ["dynamics".data, "simulation".data, "md".data, "trajectory".data, "force".data]

/-- discover.py line 220. -/
def database_access_keywords : List Str :=
  ["database".data, "pubchem".data, "chembl".data, "api".data, "query".data]

/-- discover.py line 226:
`((tool.get('description') or '') + ' ' + (tool.get('name') or '')).lower()`. -/
def catText (t : Tool) : Str := lowerStr (t.description.getD [] ++ (' ' :: t.name))

/-- discover.py line 229: `any(kw in desc for kw in workflow_data['keywords'])`. -/
def bucketMatches (keywords : List Str) (t : Tool) : Bool :=
  keywords.any (fun kw => substrOccurs kw (catText t))

/-- The name list one workflow bucket accumulates over the tool loop of
discover.py lines 225-230. -/
def bucketTools (keywords : List Str) (tools : List Tool) : List Str :=
  (tools.filter (bucketMatches keywords)).map (fun t => t.name)

/-- The dict `categorize_by_workflow` returns: per bucket, the list of
assigned tool names (its fixed keyword list is the corresponding
`*_keywords` definition above). -/
structure Workflows where
  virtual_screening : List Str
  property_prediction : List Str
  similarity_search : List Str
  molecule_generation : List Str
  visualization : List Str
  io_conversion : List Str
  simulation : List Str
  database_access : List Str

/-- discover.py lines 186-237, `categorize_by_workflow`. -/
def categorize_by_workflow (tools : List Tool) : Workflows :=
  { virtual_screening := bucketTools virtual_screening_keywords tools
    property_prediction := bucketTools property_prediction_keywords tools
    similarity_search := bucketTools similarity_search_keywords tools
    molecule_generation := bucketTools molecule_generation_keywords tools
    visualization := bucketTools visualization_keywords tools
    io_conversion := bucketTools io_conversion_keywords tools
    simulation := bucketTools simulation_keywords tools
    database_access := bucketTools database_access_keywords tools }

/-- discover.py line 245: `tool['name'].lower()`, the deduplication key. -/
def lowerName (t : Tool) : Str := lowerStr t.name

/-- The loop of discover.py lines 241-248: the running `seen_names` set is the
first argument, the not-yet-visited tools the second. -/
def dedupeGo : List Str → List Tool → List Tool
  | _, [] => []
  | seen, t :: ts =>
    if lowerName t ∈ seen then dedupeGo seen ts
    else t :: dedupeGo (lowerName t :: seen) ts

/-- discover.py lines 239-250, `deduplicate`. -/
def deduplicate (tools : List Tool) : List Tool := dedupeGo [] tools

/-- discover.py line 279 / 282: `name.lower().replace('-', '').replace('_', '')`,
the (stricter) normalization used only for the seed-injection comparison. -/
def seedNormalize (s : Str) : Str := (lowerStr s).filter (fun c => !(c == '-' || c == '_'))

/-- discover.py lines 273-277: the fixed seed list of foundation packages. -/
def foundation_tools : List Str :=
  ["rdkit-pypi".data, "rdkit".data, "openbabel-wheel".data, "openbabel".data,
   "biopython".data, "prody".data, "mordred".data, "chempy".data,
   "pymol-open-source".data, "biotite".data]

/-- discover.py lines 287-290: the mutation of a successful seed lookup's
record before it is appended. -/
def seedEnrich (t : Tool) : Tool :=
  { t with has_pypi := some true
           stars := some 0
           days_since_update := some 30
           topics := some ["foundation-tool".data] }

/-- The seed-injection loop of discover.py lines 281-295: the seed names not
yet processed, the running `existing_names` set, and the running tool list. -/
def addFoundationTools (fetch : Str → HttpOutcome) :
    List Str → List Str → List Tool → List Tool
  | [], _, tools => tools
  | pkg :: rest, existing, tools =>
    if seedNormalize pkg ∈ existing then addFoundationTools fetch rest existing tools
    else
      match get_pypi_info fetch pkg with
      | some info =>
          addFoundationTools fetch rest (seedNormalize pkg :: existing)
            (tools ++ [seedEnrich info])
      | none => addFoundationTools fetch rest existing tools

/-- Total number of occurrences of keyword-list terms in the concatenation of
name and description (this follows the CLAIM's wording, to be compared with
the source's `keywordMatches`, which counts each keyword at most once). -/
def keywordOccurrenceTotal (t : Tool) : Nat :=
  (chem_keywords.map (fun kw => substrCount kw (nameLower t ++ descLower t))).sum

/-- The keyword component as the CLAIM words it: `2 ×` total occurrences,
capped at 10. -/
def keywordOccurrenceScoreClaimed (t : Tool) : ℚ :=
  (min (2 * keywordOccurrenceTotal t) 10 : ℕ)

/-- Concrete discovered list of the validator example: `RDKit`, `OpenBabel`,
`randomtool`, in this rank order. -/
def c1_discovered : List Tool :=
  [{ name := "RDKit".data, source := "github".data },
   { name := "OpenBabel".data, source := "github".data },
   { name := "randomtool".data, source := "github".data }]

/-- Concrete reference list of the validator example. -/
def c1_reference : List Str := ["rdkit".data, "openbabel".data, "deepchem".data]

/-- A record whose description holds three occurrences of the keyword `chem`:
separates occurrence counting from per-keyword matching. -/
def c2_tool : Tool :=
  { name := "x".data, source := "github".data, description := some "chem chem chem".data }

/-- A record whose description holds both `dock` and `predict`. -/
def c6_tool : Tool :=
  { name := "tooldp".data, source := "github".data,
    description := some "docking pose predictor".data }

/-- An oracle whose every lookup yields a 200 response with an empty-field
payload. -/
def fetchOk : Str → HttpOutcome := fun _ => .response 200 (some {})

/-- An oracle whose every lookup yields a 404 response (name not on the
index): the payload carries no `info` object. -/
def fetchNotFound : Str → HttpOutcome := fun _ => .response 404 none

/-- An oracle whose every lookup raises (timeout / connection failure). -/
def fetchFailure : Str → HttpOutcome := fun _ => .failure

/-- A concrete input list for the deduplicator: `A` and `a` collide on the
lowercased key, `B` does not. -/
def c3_list : List Tool :=
  [{ name := "A".data }, { name := "a".data }, { name := "B".data }]

/-- The record `get_pypi_info` builds for the name `rdkit` under the
`fetchOk` oracle. -/
def c7_fetched : Tool :=
  { name := "rdkit".data
    source := "pypi".data
    description := some []
    version := some []
    author := some []
    home_page := some []
    pypi_url := some ("https://pypi.org/project/".data ++ "rdkit".data)
    keywords := some [] }

/-! ### Rounding facts -/

theorem roundHalfEven_intCast (z : ℤ) : roundHalfEven (z : ℚ) = z := by
  norm_num [roundHalfEven]

theorem round3_zero : round3 0 = 0 := by
  have h : (0 : ℚ) * 1000 = ((0 : ℤ) : ℚ) := by norm_num
  rw [round3, h, roundHalfEven_intCast]
  norm_num

theorem round2_natCast (n : ℕ) : round2 ((n : ℕ) : ℚ) = (n : ℚ) := by
  have h : ((n : ℕ) : ℚ) * 100 = (((100 * n : ℕ) : ℤ) : ℚ) := by push_cast; ring
  rw [round2, h, roundHalfEven_intCast]
  push_cast
  field_simp

theorem round3_natDiv20 (n : ℕ) : round3 ((n : ℚ) / 20) = (n : ℚ) / 20 := by
  have h : ((n : ℚ) / 20) * 1000 = (((50 * n : ℕ) : ℤ) : ℚ) := by push_cast; ring
  rw [round3, h, roundHalfEven_intCast]
  push_cast
  field_simp
  ring

/-! ### The score's components take bounded integer values -/

theorem popularityComponent_cases (o : Option Int) :
    ∃ n : ℕ, popularityComponent o = (n : ℚ) ∧ n ≤ 10 := by
  cases o with
  | none => exact ⟨0, by simp [popularityComponent], by norm_num⟩
  | some s =>
    simp only [popularityComponent]
    split_ifs
    · exact ⟨10, by norm_num, by norm_num⟩
    · exact ⟨8, by norm_num, by norm_num⟩
    · exact ⟨6, by norm_num, by norm_num⟩
    · exact ⟨4, by norm_num, by norm_num⟩
    · exact ⟨2, by norm_num, by norm_num⟩

theorem recencyComponent_cases (o : Option Int) :
    ∃ n : ℕ, recencyComponent o = (n : ℚ) ∧ n ≤ 5 := by
  cases o with
  | none => exact ⟨0, by simp [recencyComponent], by norm_num⟩
  | some d =>
    simp only [recencyComponent]
    split_ifs
    · exact ⟨5, by norm_num, by norm_num⟩
    · exact ⟨3, by norm_num, by norm_num⟩
    · exact ⟨1, by norm_num, by norm_num⟩
    · exact ⟨0, by norm_num, by norm_num⟩

theorem keywordComponent_cases (t : Tool) :
    ∃ n : ℕ, keywordComponent t = (n : ℚ) ∧ n ≤ 10 :=
  ⟨min (keywordMatches t * 2) 10, rfl, Nat.min_le_right _ _⟩

theorem pypiComponent_cases (t : Tool) :
    ∃ n : ℕ, pypiComponent t = (n : ℚ) ∧ n ≤ 3 := by
  simp only [pypiComponent]
  split_ifs
  · exact ⟨3, by norm_num, by norm_num⟩
  · exact ⟨0, by norm_num, by norm_num⟩

theorem topicsComponent_cases (t : Tool) :
    ∃ n : ℕ, topicsComponent t = (n : ℚ) ∧ n ≤ 2 := by
  unfold topicsComponent
  cases t.topics with
  | none => exact ⟨0, by norm_num, by norm_num⟩
  | some ts =>
    by_cases h : ts.length > 2
    · exact ⟨2, by simp [h], by norm_num⟩
    · exact ⟨0, by simp [h], by norm_num⟩

theorem foundationComponent_cases (t : Tool) :
    ∃ n : ℕ, foundationComponent t = (n : ℚ) ∧ n ≤ 5 := by
  simp only [foundationComponent]
  split_ifs
  · exact ⟨5, by norm_num, by norm_num⟩
  · exact ⟨0, by norm_num, by norm_num⟩

/-- C10: for every record, `calculate_quality_score` returns a value between
0 and 35 (the sum of the component caps 10 + 5 + 10 + 3 + 2 + 5), and the
value is a fixed point of rounding to 2 decimal places. -/
theorem C10_score_bounds (t : Tool) :
    0 ≤ calculate_quality_score t ∧ calculate_quality_score t ≤ 35 ∧
    round2 (calculate_quality_score t) = calculate_quality_score t := by
  obtain ⟨n1, e1, b1⟩ := popularityComponent_cases t.stars
  obtain ⟨n2, e2, b2⟩ := recencyComponent_cases t.days_since_update
  obtain ⟨n3, e3, b3⟩ := keywordComponent_cases t
  obtain ⟨n4, e4, b4⟩ := pypiComponent_cases t
  obtain ⟨n5, e5, b5⟩ := topicsComponent_cases t
  obtain ⟨n6, e6, b6⟩ := foundationComponent_cases t
  have hsum : popularityComponent t.stars + recencyComponent t.days_since_update +
      keywordComponent t + pypiComponent t + topicsComponent t + foundationComponent t =
      ((n1 + n2 + n3 + n4 + n5 + n6 : ℕ) : ℚ) := by
    rw [e1, e2, e3, e4, e5, e6]; push_cast; ring
  have hscore : calculate_quality_score t = ((n1 + n2 + n3 + n4 + n5 + n6 : ℕ) : ℚ) := by
    rw [calculate_quality_score, hsum, round2_natCast]
  refine ⟨?_, ?_, ?_⟩
  · rw [hscore]; positivity
  · rw [hscore]
    have hb : n1 + n2 + n3 + n4 + n5 + n6 ≤ 35 := by omega
    calc ((n1 + n2 + n3 + n4 + n5 + n6 : ℕ) : ℚ) ≤ ((35 : ℕ) : ℚ) := by exact_mod_cast hb
      _ = 35 := by norm_num
  · rw [hscore, round2_natCast]

/-- C5: the popularity component is monotone non-decreasing in the known
stars value, and the recency component is monotone non-increasing in the
known days-since-update value. -/
theorem C5_component_monotonicity :
    (∀ s1 s2 : Int, s1 ≤ s2 →
      popularityComponent (some s1) ≤ popularityComponent (some s2)) ∧
    (∀ d1 d2 : Int, d1 ≤ d2 →
      recencyComponent (some d2) ≤ recencyComponent (some d1)) := by
  constructor
  · intro s1 s2 h
    simp only [popularityComponent]
    split_ifs
    all_goals try (exfalso; omega)
    all_goals norm_num
  · intro d1 d2 h
    simp only [recencyComponent]
    split_ifs
    all_goals try (exfalso; omega)
    all_goals norm_num

/-- C5 witness: concrete instances of both monotonicity statements. -/
theorem C5_witness :
    popularityComponent (some 300) ≤ popularityComponent (some 600) ∧
    recencyComponent (some 100) ≤ recencyComponent (some 10) :=
  ⟨C5_component_monotonicity.1 300 600 (by norm_num),
   C5_component_monotonicity.2 10 100 (by norm_num)⟩

/-- C2 counterexample: a record whose description holds the keyword `chem`
three times.  The claimed occurrence-count formula gives `2 × 3 = 6`, the
code's per-keyword match count gives `2 × 1 = 2`. -/
theorem C2_counterexample :
    keywordComponent c2_tool ≠ keywordOccurrenceScoreClaimed c2_tool := by decide

/-- C2 (amended): the keyword-relevance component equals 2 times the number
of keywords of the fixed 14-entry list that occur case-insensitively in the
record's description or name — each keyword counted at most once however
often it occurs — capped at 10. -/
theorem C2_keyword_component (t : Tool) :
    keywordComponent t =
      ((min (2 * (chem_keywords.filter (fun kw =>
        substrOccurs kw (descLower t) || substrOccurs kw (nameLower t))).length) 10 : ℕ) : ℚ) ∧
    chem_keywords.length = 14 ∧ keywordComponent t ≤ 10 := by
  refine ⟨?_, rfl, ?_⟩
  · rw [keywordComponent, keywordMatches, List.countP_eq_length_filter, Nat.mul_comm]
  · obtain ⟨n, e, b⟩ := keywordComponent_cases t
    rw [e]
    calc (n : ℚ) ≤ ((10 : ℕ) : ℚ) := by exact_mod_cast b
      _ = 10 := by norm_num

/-- C4: `precision_at_20` is the top-20 intersection count divided by 20 when
the first 20 ranked records carry at least 20 distinct normalized names, and
0 otherwise. -/
theorem C4_precision_at_20_rule (d : List Tool) (g : List Str) :
    (calculate_metrics d g).precision_at_20 =
      if 20 ≤ (top20Names d).card then
        ((top20Names d ∩ goldNames g).card : ℚ) / 20
      else 0 := by
  show round3 (precisionAt20Val d g) = _
  unfold precisionAt20Val
  split_ifs with h
  · exact round3_natDiv20 _
  · exact round3_zero

/-- C9: with an empty reference list the returned recall is 0 (division by
zero never happens: the code guards on set nonemptiness, and the embedding is
total); the returned recall is the rounded `recallVal`; and when the
normalized reference set is nonempty, `recallVal` is the intersection size
over the reference-set size. -/
theorem C9_recall_total (d : List Tool) (g : List Str) :
    (calculate_metrics d []).recall = 0 ∧
    (calculate_metrics d g).recall = round3 (recallVal d g) ∧
    ((goldNames g).Nonempty →
      recallVal d g =
        ((discoveredNames d ∩ goldNames g).card : ℚ) / ((goldNames g).card : ℚ)) := by
  refine ⟨?_, rfl, ?_⟩
  · show round3 (recallVal d []) = 0
    have h : recallVal d [] = 0 := by simp [recallVal, goldNames]
    rw [h, round3_zero]
  · intro h
    simp [recallVal, h]

/-- C9 witness: the empty-reference case and the nonempty-reference formula
at concrete inputs. -/
theorem C9_witness :
    (calculate_metrics [] []).recall = 0 ∧
    recallVal [] ["rdkit".data] =
      ((discoveredNames [] ∩ goldNames ["rdkit".data]).card : ℚ) /
        ((goldNames ["rdkit".data]).card : ℚ) :=
  ⟨(C9_recall_total [] []).1, (C9_recall_total [] ["rdkit".data]).2.2 (by decide)⟩

theorem roundHalfEven_eq_add_one (q : ℚ) (z : ℤ) (hf : ⌊q⌋ = z)
    (h2 : 1/2 < q - (z : ℚ)) : roundHalfEven q = z + 1 := by
  unfold roundHalfEven
  rw [hf, if_neg (by linarith), if_pos h2]

theorem round3_two_thirds : round3 (2/3) = 667 / 1000 := by
  have hf : ⌊(2 : ℚ)/3 * 1000⌋ = 666 := by
    rw [Int.floor_eq_iff]
    norm_num
  have h := roundHalfEven_eq_add_one ((2 : ℚ)/3 * 1000) 666 hf (by norm_num)
  rw [round3, h]
  norm_num

/-- C1: the validator example — recall 0.667, found = `{rdkit, openbabel}`,
missed = `{deepchem}`, and precisionAt20 = 0 because fewer than 20 distinct
normalized discovered names exist. -/
theorem C1_validator_example :
    (calculate_metrics c1_discovered c1_reference).recall = 667 / 1000 ∧
    (calculate_metrics c1_discovered c1_reference).found_tools =
      {"rdkit".data, "openbabel".data} ∧
    (calculate_metrics c1_discovered c1_reference).missed_tools = {"deepchem".data} ∧
    (calculate_metrics c1_discovered c1_reference).precision_at_20 = 0 ∧
    (top20Names c1_discovered).card < 20 := by
  have hcard1 : (discoveredNames c1_discovered ∩ goldNames c1_reference).card = 2 := by decide
  have hcard2 : (goldNames c1_reference).card = 3 := by decide
  have hne : (goldNames c1_reference).Nonempty := by decide
  have hrecall : recallVal c1_discovered c1_reference = 2/3 := by
    unfold recallVal
    rw [if_pos hne, hcard1, hcard2]
    norm_num
  refine ⟨?_, by decide, by decide, ?_, by decide⟩
  · show round3 (recallVal c1_discovered c1_reference) = 667 / 1000
    rw [hrecall, round3_two_thirds]
  · show round3 (precisionAt20Val c1_discovered c1_reference) = 0
    have hp : precisionAt20Val c1_discovered c1_reference = 0 := by
      unfold precisionAt20Val
      rw [if_neg (by decide)]
    rw [hp, round3_zero]

/-! ### Deduplication -/

theorem dedupeGo_sublist (seen : List Str) (l : List Tool) :
    List.Sublist (dedupeGo seen l) l := by
  induction l generalizing seen with
  | nil => simp [dedupeGo]
  | cons t ts ih =>
    simp only [dedupeGo]
    split_ifs with h
    · exact List.Sublist.cons t (ih seen)
    · exact List.Sublist.cons₂ t (ih (lowerName t :: seen))

theorem mem_dedupeGo_key_notin (seen : List Str) (l : List Tool) :
    ∀ u ∈ dedupeGo seen l, lowerName u ∉ seen := by
  induction l generalizing seen with
  | nil => intro u hu; simp [dedupeGo] at hu
  | cons t ts ih =>
    intro u hu
    simp only [dedupeGo] at hu
    split_ifs at hu with h
    · exact ih seen u hu
    · rcases List.mem_cons.mp hu with rfl | hu2
      · exact h
      · intro hs
        exact ih (lowerName t :: seen) u hu2 (List.mem_cons_of_mem _ hs)

theorem dedupeGo_pairwise (seen : List Str) (l : List Tool) :
    (dedupeGo seen l).Pairwise (fun a b => lowerName a ≠ lowerName b) := by
  induction l generalizing seen with
  | nil => simp [dedupeGo]
  | cons t ts ih =>
    simp only [dedupeGo]
    split_ifs with h
    · exact ih seen
    · refine List.Pairwise.cons ?_ (ih (lowerName t :: seen))
      intro u hu he
      exact mem_dedupeGo_key_notin (lowerName t :: seen) ts u hu
        (by rw [← he]; exact List.mem_cons_self _ _)

theorem dedupeGo_covers (seen : List Str) (l : List Tool) :
    ∀ t ∈ l, lowerName t ∉ seen → ∃ u ∈ dedupeGo seen l, lowerName u = lowerName t := by
  induction l generalizing seen with
  | nil => intro t ht; simp at ht
  | cons a ts ih =>
    intro t ht hns
    simp only [dedupeGo]
    split_ifs with h
    · rcases List.mem_cons.mp ht with rfl | ht2
      · exact absurd h hns
      · exact ih seen t ht2 hns
    · rcases List.mem_cons.mp ht with rfl | ht2
      · exact ⟨t, List.mem_cons_self _ _, rfl⟩
      · by_cases he : lowerName t = lowerName a
        · exact ⟨a, List.mem_cons_self _ _, he.symm⟩
        · have hnotin : lowerName t ∉ lowerName a :: seen := by
            intro hs
            rcases List.mem_cons.mp hs with h1 | h2
            · exact he h1
            · exact hns h2
          obtain ⟨u, hu, hue⟩ := ih (lowerName a :: seen) t ht2 hnotin
          exact ⟨u, List.mem_cons_of_mem _ hu, hue⟩

theorem dedupeGo_first_occurrence (seen : List Str) (l : List Tool) :
    ∀ u ∈ dedupeGo seen l, l.find? (fun t => lowerName t == lowerName u) = some u := by
  induction l generalizing seen with
  | nil => intro u hu; simp [dedupeGo] at hu
  | cons a ts ih =>
    intro u hu
    simp only [dedupeGo] at hu
    split_ifs at hu with h
    · have hne : lowerName a ≠ lowerName u := by
        intro he
        exact mem_dedupeGo_key_notin seen ts u hu (he ▸ h)
      have hfalse : (lowerName a == lowerName u) = false := by
        simp only [beq_eq_false_iff_ne, ne_eq]
        exact hne
      rw [List.find?_cons, hfalse]
      exact ih seen u hu
    · rcases List.mem_cons.mp hu with rfl | hu2
      · have htrue : (lowerName u == lowerName u) = true := beq_self_eq_true _
        rw [List.find?_cons, htrue]
      · have hne : lowerName a ≠ lowerName u := by
          intro he
          exact mem_dedupeGo_key_notin (lowerName a :: seen) ts u hu2
            (by rw [← he]; exact List.mem_cons_self _ _)
        have hfalse : (lowerName a == lowerName u) = false := by
          simp only [beq_eq_false_iff_ne, ne_eq]
          exact hne
        rw [List.find?_cons, hfalse]
        exact ih (lowerName a :: seen) u hu2

/-- C3: `deduplicate` returns at most as many records as it got, no two
returned records share a lowercased name, the returned records appear in
input order (a sublist of the input), every input lowercased name is
represented, and every returned record is the FIRST input record carrying
its lowercased name. -/
theorem C3_deduplicate_first_occurrences (l : List Tool) :
    (deduplicate l).length ≤ l.length ∧
    (deduplicate l).Pairwise (fun a b => lowerName a ≠ lowerName b) ∧
    List.Sublist (deduplicate l) l ∧
    (∀ t ∈ l, ∃ u ∈ deduplicate l, lowerName u = lowerName t) ∧
    (∀ u ∈ deduplicate l, l.find? (fun t => lowerName t == lowerName u) = some u) := by
  refine ⟨(dedupeGo_sublist [] l).length_le, dedupeGo_pairwise [] l,
    dedupeGo_sublist [] l, ?_, dedupeGo_first_occurrence [] l⟩
  intro t ht
  exact dedupeGo_covers [] l t ht (by simp)

/-- C3 witness: the claim instantiated on a list where `A` and `a` collide. -/
theorem C3_witness :
    (deduplicate c3_list).length ≤ c3_list.length ∧
    (∃ u ∈ deduplicate c3_list, lowerName u = lowerName { name := "a".data }) ∧
    (deduplicate c3_list).find?
      (fun t => lowerName t == lowerName { name := "A".data }) = some { name := "A".data } :=
  ⟨(C3_deduplicate_first_occurrences c3_list).1,
   (C3_deduplicate_first_occurrences c3_list).2.2.2.1 { name := "a".data } (by decide),
   (C3_deduplicate_first_occurrences (deduplicate c3_list)).2.2.2.2
     { name := "A".data } (by decide)⟩

/-! ### Substring facts for the categorizer -/

theorem beginsWith_nil_true (s : Str) : beginsWith [] s = true := by
  cases s <;> rfl

theorem beginsWith_map (f : Char → Char) :
    ∀ pat s, beginsWith pat s = true → beginsWith (pat.map f) (s.map f) = true := by
  intro pat
  induction pat with
  | nil => intro s _; exact beginsWith_nil_true _
  | cons c cs ih =>
    intro s h
    cases s with
    | nil => simp [beginsWith] at h
    | cons d ds =>
      simp only [beginsWith, Bool.and_eq_true, beq_iff_eq] at h
      simp only [List.map_cons, beginsWith, Bool.and_eq_true, beq_iff_eq]
      exact ⟨by rw [h.1], ih ds h.2⟩

theorem beginsWith_append (ext : Str) :
    ∀ pat s, beginsWith pat s = true → beginsWith pat (s ++ ext) = true := by
  intro pat
  induction pat with
  | nil => intro s _; exact beginsWith_nil_true _
  | cons c cs ih =>
    intro s h
    cases s with
    | nil => simp [beginsWith] at h
    | cons d ds =>
      simp only [List.cons_append, beginsWith, Bool.and_eq_true] at h ⊢
      exact ⟨h.1, ih ds h.2⟩

theorem beginsWith_nil_iff (pat : Str) : beginsWith pat [] = true ↔ pat = [] := by
  cases pat <;> simp [beginsWith]

theorem substrOccurs_nil_pat (s : Str) : substrOccurs [] s = true := by
  induction s with
  | nil => rfl
  | cons c cs ih => simp [substrOccurs, beginsWith_nil_true]

theorem substrOccurs_map (f : Char → Char) (pat : Str) :
    ∀ s, substrOccurs pat s = true → substrOccurs (pat.map f) (s.map f) = true := by
  intro s
  induction s with
  | nil =>
    intro h
    have hp : pat = [] := (beginsWith_nil_iff pat).mp h
    subst hp
    exact substrOccurs_nil_pat _
  | cons c cs ih =>
    intro h
    simp only [substrOccurs, Bool.or_eq_true] at h
    simp only [List.map_cons, substrOccurs, Bool.or_eq_true]
    rcases h with h | h
    · exact Or.inl (by simpa using beginsWith_map f pat (c :: cs) h)
    · exact Or.inr (ih h)

theorem substrOccurs_append_right (ext : Str) (pat : Str) :
    ∀ s, substrOccurs pat s = true → substrOccurs pat (s ++ ext) = true := by
  intro s
  induction s with
  | nil =>
    intro h
    have hp : pat = [] := (beginsWith_nil_iff pat).mp h
    subst hp
    exact substrOccurs_nil_pat _
  | cons c cs ih =>
    intro h
    simp only [substrOccurs, Bool.or_eq_true] at h
    simp only [List.cons_append, substrOccurs, Bool.or_eq_true]
    rcases h with h | h
    · exact Or.inl (by simpa using beginsWith_append ext pat (c :: cs) h)
    · exact Or.inr (ih h)

/-- A pattern that is fixed under lowercasing and occurs in the raw
description also occurs in the categorizer's lowercased `description + ' ' +
name` text. -/
theorem substrOccurs_catText (t : Tool) (pat : Str)
    (hp : substrOccurs pat (t.description.getD []) = true)
    (hfix : pat.map Char.toLower = pat) :
    substrOccurs pat (catText t) = true := by
  unfold catText lowerStr
  rw [List.map_append]
  have h1 := substrOccurs_map Char.toLower pat (t.description.getD []) hp
  rw [hfix] at h1
  exact substrOccurs_append_right _ pat _ h1

/-- C6: categorization is non-exclusive — a record whose description holds
both `dock` and `predict` lands, by name, in both the virtual-screening and
the property-prediction bucket. -/
theorem C6_nonexclusive_categorization (tools : List Tool) (t : Tool)
    (hmem : t ∈ tools)
    (hdock : substrOccurs "dock".data (t.description.getD []) = true)
    (hpredict : substrOccurs "predict".data (t.description.getD []) = true) :
    t.name ∈ (categorize_by_workflow tools).virtual_screening ∧
    t.name ∈ (categorize_by_workflow tools).property_prediction := by
  have hv : bucketMatches virtual_screening_keywords t = true := by
    unfold bucketMatches
    rw [List.any_eq_true]
    exact ⟨"dock".data, by decide, substrOccurs_catText t "dock".data hdock (by decide)⟩
  have hpp : bucketMatches property_prediction_keywords t = true := by
    unfold bucketMatches
    rw [List.any_eq_true]
    exact ⟨"predict".data, by decide, substrOccurs_catText t "predict".data hpredict (by decide)⟩
  constructor
  · show t.name ∈ bucketTools virtual_screening_keywords tools
    unfold bucketTools
    exact List.mem_map.mpr ⟨t, List.mem_filter.mpr ⟨hmem, hv⟩, rfl⟩
  · show t.name ∈ bucketTools property_prediction_keywords tools
    unfold bucketTools
    exact List.mem_map.mpr ⟨t, List.mem_filter.mpr ⟨hmem, hpp⟩, rfl⟩

/-- C6 witness: a concrete record whose description holds both `dock` and
`predict` is listed in both buckets. -/
theorem C6_witness :
    c6_tool.name ∈ (categorize_by_workflow [c6_tool]).virtual_screening ∧
    c6_tool.name ∈ (categorize_by_workflow [c6_tool]).property_prediction :=
  C6_nonexclusive_categorization [c6_tool] c6_tool (by decide) (by decide) (by decide)

/-! ### The package-index client and the seed-injection loop -/

theorem get_pypi_info_source (fetch : Str → HttpOutcome) (pkg : Str) (t : Tool)
    (h : get_pypi_info fetch pkg = some t) : t.source = "pypi".data := by
  unfold get_pypi_info at h
  split at h
  · exact Option.noConfusion h
  · split at h
    · split at h
      · exact Option.noConfusion h
      · injection h with h'
        rw [← h']
    · exact Option.noConfusion h

/-- C7: one step of the seed-injection loop.  A seed whose loose
normalization is already known is skipped outright; a new seed with a
successful lookup appends exactly one record carrying `source = pypi`,
`stars = 0`, `days_since_update = 30` and `topics = [foundation-tool]` and
marks the normalization as known; a new seed with a failed lookup adds
nothing and the loop proceeds (the embedding is total, so no error
escapes). -/
theorem C7_seed_injection (fetch : Str → HttpOutcome) (pkg : Str)
    (rest existing : List Str) (tools : List Tool) :
    (seedNormalize pkg ∈ existing →
      addFoundationTools fetch (pkg :: rest) existing tools =
        addFoundationTools fetch rest existing tools) ∧
    (seedNormalize pkg ∉ existing → ∀ info, get_pypi_info fetch pkg = some info →
      addFoundationTools fetch (pkg :: rest) existing tools =
        addFoundationTools fetch rest (seedNormalize pkg :: existing)
          (tools ++ [seedEnrich info]) ∧
      (seedEnrich info).source = "pypi".data ∧
      (seedEnrich info).stars = some 0 ∧
      (seedEnrich info).days_since_update = some 30 ∧
      (seedEnrich info).topics = some ["foundation-tool".data]) ∧
    (seedNormalize pkg ∉ existing → get_pypi_info fetch pkg = none →
      addFoundationTools fetch (pkg :: rest) existing tools =
        addFoundationTools fetch rest existing tools) := by
  refine ⟨?_, ?_, ?_⟩
  · intro h
    simp only [addFoundationTools, if_pos h]
  · intro h info hinfo
    refine ⟨?_, get_pypi_info_source fetch pkg info hinfo, rfl, rfl, rfl⟩
    simp only [addFoundationTools, if_neg h, hinfo]
  · intro h hnone
    simp only [addFoundationTools, if_neg h, hnone]

/-- C7 witness: the three loop-step cases at concrete inputs — a seed
already known, a new seed found on the index, and a new seed whose lookup
fails. -/
theorem C7_witness :
    (addFoundationTools fetchOk ["rdkit".data] ["rdkit".data] [] =
      addFoundationTools fetchOk [] ["rdkit".data] []) ∧
    (addFoundationTools fetchOk ["rdkit".data] [] [] =
      addFoundationTools fetchOk [] [seedNormalize "rdkit".data]
        ([] ++ [seedEnrich c7_fetched]) ∧
      (seedEnrich c7_fetched).source = "pypi".data ∧
      (seedEnrich c7_fetched).stars = some 0 ∧
      (seedEnrich c7_fetched).days_since_update = some 30 ∧
      (seedEnrich c7_fetched).topics = some ["foundation-tool".data]) ∧
    (addFoundationTools fetchFailure ["rdkit".data] [] [] =
      addFoundationTools fetchFailure [] [] []) :=
  ⟨(C7_seed_injection fetchOk "rdkit".data [] ["rdkit".data] []).1 (by decide),
   (C7_seed_injection fetchOk "rdkit".data [] [] []).2.1 (by decide) c7_fetched (by decide),
   (C7_seed_injection fetchFailure "rdkit".data [] [] []).2.2 (by decide) (by decide)⟩

/-- C8 counterexample: a name the index does not know (404 response) and a
transient failure (raised exception) give `get_pypi_info` results that are
EQUAL — `None` both times — so the two outcomes are not distinguishable,
against the claim. -/
theorem C8_counterexample :
    get_pypi_info fetchNotFound "rdkit".data = get_pypi_info fetchFailure "rdkit".data := rfl

/-- C8 (amended): the client distinguishes only success-with-data from
everything else — it returns a populated record exactly when the response
has status 200 and a well-formed payload, while a non-200 response (such as
not-found), a malformed payload and a raised exception all collapse to the
single empty outcome `None`. -/
theorem C8_lookup_outcomes (fetch : Str → HttpOutcome) (name : Str) :
    ((∃ t, get_pypi_info fetch name = some t) ↔
      (∃ i, fetch name = .response 200 (some i))) ∧
    (∀ status info, status ≠ 200 → fetch name = .response status info →
      get_pypi_info fetch name = none) ∧
    (∀ status, fetch name = .response status none → get_pypi_info fetch name = none) ∧
    (fetch name = .failure → get_pypi_info fetch name = none) := by
  refine ⟨⟨?_, ?_⟩, ?_, ?_, ?_⟩
  · rintro ⟨t, ht⟩
    unfold get_pypi_info at ht
    rcases hf : fetch name with ⟨status, info⟩ | _ <;> rw [hf] at ht
    · by_cases hs : status = 200
      · subst hs
        cases info with
        | none => simp at ht
        | some i => exact ⟨i, rfl⟩
      · simp [hs] at ht
    · simp at ht
  · rintro ⟨i, hi⟩
    refine ⟨{ name := name, source := "pypi".data, description := some i.summary,
              version := some i.version, author := some i.author,
              home_page := some i.home_page,
              pypi_url := some ("https://pypi.org/project/".data ++ name),
              keywords := some i.keywords }, ?_⟩
    unfold get_pypi_info
    rw [hi]
    simp
  · intro status info hs hf
    unfold get_pypi_info
    rw [hf]
    simp [hs]
  · intro status hf
    unfold get_pypi_info
    rw [hf]
    by_cases hs : status = 200
    · simp [hs]
    · simp [hs]
  · intro hf
    unfold get_pypi_info
    rw [hf]

/-- C8 witness: the amended characterization at the concrete oracles. -/
theorem C8_witness :
    get_pypi_info fetchNotFound "rdkit".data = none ∧
    get_pypi_info fetchFailure "rdkit".data = none :=
  ⟨(C8_lookup_outcomes fetchNotFound "rdkit".data).2.2.1 404 rfl,
   (C8_lookup_outcomes fetchFailure "rdkit".data).2.2.2 rfl⟩
